import Mathlib

/-!
Verification development for the Noegenesis procedural-geometry engine
(`src/components/Scene.tsx` and its collaborators).

The recursive subdivision algorithms (`buildFractal`, `buildHole`, `buildKoch`,
`buildJulia`, `buildMandelbrot`), the escape-time iterations, the mesh assembly
of `generateStructure`, the transition state machine of `animate`, and the
Doppler per-vertex recoloring are embedded shallowly below.  Vertex coordinates
are real numbers (the code computes with floating-point numbers; all the
properties verified here are exact-arithmetic properties of the formulas), and
the transition state machine uses rational timestamps and opacities, which keeps
it fully computable.  Lists model the JavaScript arrays; `push` becomes
appending at the tail, so emission order is preserved.
-/

namespace Noegenesis

/-- Fractal type enumeration, from `src/types` (`FractalType`). -/
inductive FractalType where
  | noegenesis
  | koch
  | mandelbrot
  | julia
  | hybrid
deriving DecidableEq, Repr

/-- Rotation axis enumeration, from `src/types` (`RotationAxis`). -/
inductive RotationAxis where
  | both
  | horizontal
  | vertical
deriving DecidableEq, Repr

noncomputable section

/-- 3D vector, after `THREE.Vector3` restricted to the operations the scene
uses.  Components are real numbers. -/
structure Vec3 where
  x : ℝ
  y : ℝ
  z : ℝ

namespace Vec3

/-- `THREE.Vector3.addVectors` / `add`. -/
def add (v w : Vec3) : Vec3 := ⟨v.x + w.x, v.y + w.y, v.z + w.z⟩

/-- `THREE.Vector3.subVectors` / `sub`. -/
def sub (v w : Vec3) : Vec3 := ⟨v.x - w.x, v.y - w.y, v.z - w.z⟩

/-- `THREE.Vector3.multiplyScalar`. -/
def multiplyScalar (v : Vec3) (s : ℝ) : Vec3 := ⟨v.x * s, v.y * s, v.z * s⟩

/-- `THREE.Vector3.divideScalar` (implemented there as `multiplyScalar (1 / s)`). -/
def divideScalar (v : Vec3) (s : ℝ) : Vec3 := v.multiplyScalar (1 / s)

/-- `THREE.Vector3.crossVectors` / `cross`. -/
def cross (v w : Vec3) : Vec3 :=
  ⟨v.y * w.z - v.z * w.y, v.z * w.x - v.x * w.z, v.x * w.y - v.y * w.x⟩

/-- `THREE.Vector3.dot`. -/
def dot (v w : Vec3) : ℝ := v.x * w.x + v.y * w.y + v.z * w.z

/-- `THREE.Vector3.length`. -/
def length (v : Vec3) : ℝ := Real.sqrt (v.x * v.x + v.y * v.y + v.z * v.z)

/-- `THREE.Vector3.distanceTo`. -/
def distanceTo (v w : Vec3) : ℝ := (v.sub w).length

/-- `THREE.Vector3.normalize`, which divides by `length || 1`: the zero vector
(of length `0`) is left unchanged. -/
def normalize (v : Vec3) : Vec3 :=
  v.divideScalar (if v.length = 0 then 1 else v.length)

/-- `THREE.Vector3.negate`. -/
def negate (v : Vec3) : Vec3 := ⟨-v.x, -v.y, -v.z⟩

/-- `THREE.Vector3.lerp`: `v + (w - v) * t` componentwise. -/
def lerp (v w : Vec3) (t : ℝ) : Vec3 :=
  ⟨v.x + (w.x - v.x) * t, v.y + (w.y - v.y) * t, v.z + (w.z - v.z) * t⟩

/-- `new THREE.Vector3()`. -/
def zero : Vec3 := ⟨0, 0, 0⟩

@[simp] theorem zero_add (v : Vec3) : zero.add v = v := by
  simp [zero, add]

end Vec3

/-- `buildHole` from `Scene.tsx`: plain midpoint subdivision of the central
triangle into the negative-space list, terminating at depth 0 by emitting the
triangle verbatim. -/
def buildHole (v1 v2 v3 : Vec3) : ℕ → List Vec3 → List Vec3
  | 0, holeList => holeList ++ [v1, v2, v3]
  | d + 1, holeList =>
    let m12 := (v1.add v2).multiplyScalar 0.5
    let m23 := (v2.add v3).multiplyScalar 0.5
    let m31 := (v3.add v1).multiplyScalar 0.5
    buildHole m31 m23 v3 d (buildHole m12 v2 m23 d (buildHole v1 m12 m31 d holeList))

/-- `buildFractal` from `Scene.tsx`: the base (plain / Sierpinski-style)
algorithm.  The pair carries `(mainList, dualList)`, the two accumulator arrays
of the source; the three corner sub-triangles recurse into the pair, and the
central midpoint triangle is handed to `buildHole` on the dual list. -/
def buildFractal (v1 v2 v3 : Vec3) : ℕ → List Vec3 × List Vec3 → List Vec3 × List Vec3
  | 0, acc => (acc.1 ++ [v1, v2, v3], acc.2)
  | d + 1, acc =>
    let m12 := (v1.add v2).multiplyScalar 0.5
    let m23 := (v2.add v3).multiplyScalar 0.5
    let m31 := (v3.add v1).multiplyScalar 0.5
    let acc3 := buildFractal m31 m23 v3 d (buildFractal m12 v2 m23 d (buildFractal v1 m12 m31 d acc))
    (acc3.1, buildHole m12 m23 m31 d acc3.2)

/-- `buildKoch` from `Scene.tsx`: three corner recursions plus, at the current
level, a regular-tetrahedron spike (apex at height `edgeLength * sqrt (2/3)`
along the central triangle's normal) emitted as three triangles. -/
def buildKoch (v1 v2 v3 : Vec3) : ℕ → List Vec3 → List Vec3
  | 0, vertexList => vertexList ++ [v1, v2, v3]
  | d + 1, vertexList =>
    let m12 := (v1.add v2).multiplyScalar 0.5
    let m23 := (v2.add v3).multiplyScalar 0.5
    let m31 := (v3.add v1).multiplyScalar 0.5
    let acc3 := buildKoch m31 m23 v3 d (buildKoch m12 v2 m23 d (buildKoch v1 m12 m31 d vertexList))
    let centroid := (((Vec3.zero.add m12).add m23).add m31).divideScalar 3
    let normal := ((m23.sub m12).cross (m31.sub m12)).normalize
    let edgeLength := m12.distanceTo m23
    let spikeHeight := edgeLength * Real.sqrt (2.0 / 3.0)
    let spikeApex := centroid.add (normal.multiplyScalar spikeHeight)
    acc3 ++ [m12, m23, spikeApex] ++ [m23, m31, spikeApex] ++ [m31, m12, spikeApex]

/-- The `while` loop of `juliaIteration` in `Scene.tsx`, with the Julia constant
`c = (-0.70176, -0.3842)` baked in as in the source; the fuel is the number of
remaining iterations and the result the number of iterations executed. -/
def juliaLoop : ℝ → ℝ → ℕ → ℕ
  | _, _, 0 => 0
  | zx, zy, fuel + 1 =>
    if zx * zx + zy * zy ≤ 4 then
      juliaLoop (zx * zx - zy * zy + (-0.70176)) (2 * zx * zy + (-0.3842)) fuel + 1
    else 0

/-- `juliaIteration` from `Scene.tsx`. -/
def juliaIteration (zx zy : ℝ) (maxIter : ℕ) : ℕ := juliaLoop zx zy maxIter

/-- The `while` loop of `mandelbrotIteration` in `Scene.tsx`; `cx cy` is the
constant added each step, `zx zy` the current iterate. -/
def mandelbrotLoop : ℝ → ℝ → ℝ → ℝ → ℕ → ℕ
  | _, _, _, _, 0 => 0
  | cx, cy, zx, zy, fuel + 1 =>
    if zx * zx + zy * zy ≤ 4 then
      mandelbrotLoop cx cy (zx * zx - zy * zy + cx) (2 * zx * zy + cy) fuel + 1
    else 0

/-- `mandelbrotIteration` from `Scene.tsx`: the orbit starts at `z = 0`. -/
def mandelbrotIteration (cx cy : ℝ) (maxIter : ℕ) : ℕ := mandelbrotLoop cx cy 0 0 maxIter

/-- `buildJulia` from `Scene.tsx`: three corner recursions; at the current
level the central triangle's centroid is scaled into the complex plane
(`(x / 7.5) * 2`, `(y / 7.5) * 2`) and used as the starting iterate; if the
escape-time count is below the cap 32 a spike of height
`(1 - iterations / 32) * 1.5 * (length v1 / 7.5)` is emitted, else the flat
central triangle. -/
def buildJulia (v1 v2 v3 : Vec3) : ℕ → List Vec3 → List Vec3
  | 0, vertexList => vertexList ++ [v1, v2, v3]
  | d + 1, vertexList =>
    let m12 := (v1.add v2).multiplyScalar 0.5
    let m23 := (v2.add v3).multiplyScalar 0.5
    let m31 := (v3.add v1).multiplyScalar 0.5
    let acc3 := buildJulia m31 m23 v3 d (buildJulia m12 v2 m23 d (buildJulia v1 m12 m31 d vertexList))
    let centroid := (((Vec3.zero.add m12).add m23).add m31).divideScalar 3
    let zx := (centroid.x / 7.5) * 2
    let zy := (centroid.y / 7.5) * 2
    let maxIterations : ℕ := 32
    let iterations := juliaIteration zx zy maxIterations
    if iterations < maxIterations then
      let normal := ((m23.sub m12).cross (m31.sub m12)).normalize
      let maxHeight : ℝ := 1.5
      let height := (1 - ((iterations : ℝ) / (maxIterations : ℝ))) * maxHeight * (v1.length / 7.5)
      let spikeApex := centroid.add (normal.multiplyScalar height)
      acc3 ++ [m12, m23, spikeApex] ++ [m23, m31, spikeApex] ++ [m31, m12, spikeApex]
    else
      acc3 ++ [m12, m23, m31]

/-- `buildMandelbrot` from `Scene.tsx`: like `buildJulia` but the centroid is
scaled by `(x / 7.5) * 1.5 - 0.5`, `(y / 7.5) * 1.5` and used as the constant
`c` of an orbit started at `0`. -/
def buildMandelbrot (v1 v2 v3 : Vec3) : ℕ → List Vec3 → List Vec3
  | 0, vertexList => vertexList ++ [v1, v2, v3]
  | d + 1, vertexList =>
    let m12 := (v1.add v2).multiplyScalar 0.5
    let m23 := (v2.add v3).multiplyScalar 0.5
    let m31 := (v3.add v1).multiplyScalar 0.5
    let acc3 := buildMandelbrot m31 m23 v3 d (buildMandelbrot m12 v2 m23 d (buildMandelbrot v1 m12 m31 d vertexList))
    let centroid := (((Vec3.zero.add m12).add m23).add m31).divideScalar 3
    let cx := (centroid.x / 7.5) * 1.5 - 0.5
    let cy := (centroid.y / 7.5) * 1.5
    let maxIterations : ℕ := 32
    let iterations := mandelbrotIteration cx cy maxIterations
    if iterations < maxIterations then
      let normal := ((m23.sub m12).cross (m31.sub m12)).normalize
      let maxHeight : ℝ := 1.5
      let height := (1 - ((iterations : ℝ) / (maxIterations : ℝ))) * maxHeight * (v1.length / 7.5)
      let spikeApex := centroid.add (normal.multiplyScalar height)
      acc3 ++ [m12, m23, spikeApex] ++ [m23, m31, spikeApex] ++ [m31, m12, spikeApex]
    else
      acc3 ++ [m12, m23, m31]

/-- Koch emission count per seed triangle: `T 0 = 1`, `T (d+1) = 3 * T d + 3`. -/
def kochT : ℕ → ℕ
  | 0 => 1
  | d + 1 => 3 * kochT d + 3

theorem buildFractal_main_length (d : ℕ) :
    ∀ (v1 v2 v3 : Vec3) (acc : List Vec3 × List Vec3),
      (buildFractal v1 v2 v3 d acc).1.length = acc.1.length + 3 * 3 ^ d := by
  induction d with
  | zero => intro v1 v2 v3 acc; simp [buildFractal]
  | succ d ih =>
    intro v1 v2 v3 acc
    simp only [buildFractal]
    rw [ih, ih, ih]
    have h3 : 3 ^ (d + 1) = 3 ^ d * 3 := pow_succ 3 d
    omega

theorem buildKoch_length (d : ℕ) :
    ∀ (v1 v2 v3 : Vec3) (acc : List Vec3),
      (buildKoch v1 v2 v3 d acc).length = acc.length + 3 * kochT d := by
  induction d with
  | zero => intro v1 v2 v3 acc; simp [buildKoch, kochT]
  | succ d ih =>
    intro v1 v2 v3 acc
    simp only [buildKoch, List.length_append, List.length_cons, List.length_nil]
    rw [ih, ih, ih]
    simp [kochT]
    omega

/-- Closed form for the Koch emission count: `2 * kochT d = 5 * 3 ^ d - 3`. -/
theorem kochT_closed (d : ℕ) : 2 * kochT d = 5 * 3 ^ d - 3 := by
  induction d with
  | zero => simp [kochT]
  | succ d ih =>
    have h3 : 3 ^ (d + 1) = 3 ^ d * 3 := pow_succ 3 d
    have hge : 1 ≤ 3 ^ d := Nat.one_le_pow _ _ (by norm_num)
    simp only [kochT]
    omega

/-! ### Base geometry: `new THREE.IcosahedronGeometry(radius, 1)`

The scene seeds every fractal variant with the faces of a three.js icosahedron
of radius `7.5` and detail `1`.  `THREE.IcosahedronGeometry` (library code, not
part of this repository) builds the 12 golden-ratio vertices and 20 index
triples below, subdivides each face once (detail 1 splits a face into 4
midpoint sub-triangles), and projects every resulting vertex onto the sphere of
the given radius.  The resulting position buffer is non-indexed: 20 faces × 4
sub-faces × 3 vertices = 240 positions, i.e. 80 seed triangles. -/

/-- Golden ratio `t = (1 + sqrt 5) / 2` of the three.js icosahedron table. -/
def icoT : ℝ := (1 + Real.sqrt 5) / 2

/-- The 12 base vertices of `THREE.IcosahedronGeometry`. -/
def icoVertex : ℕ → Vec3
  | 0 => ⟨-1, icoT, 0⟩
  | 1 => ⟨1, icoT, 0⟩
  | 2 => ⟨-1, -icoT, 0⟩
  | 3 => ⟨1, -icoT, 0⟩
  | 4 => ⟨0, -1, icoT⟩
  | 5 => ⟨0, 1, icoT⟩
  | 6 => ⟨0, -1, -icoT⟩
  | 7 => ⟨0, 1, -icoT⟩
  | 8 => ⟨icoT, 0, -1⟩
  | 9 => ⟨icoT, 0, 1⟩
  | 10 => ⟨-icoT, 0, -1⟩
  | 11 => ⟨-icoT, 0, 1⟩
  | _ => ⟨0, 0, 0⟩

/-- The 20 face index triples of `THREE.IcosahedronGeometry`. -/
def icoFaces : List (ℕ × ℕ × ℕ) :=
  [(0, 11, 5), (0, 5, 1), (0, 1, 7), (0, 7, 10), (0, 10, 11),
   (1, 5, 9), (5, 11, 4), (11, 10, 2), (10, 7, 6), (7, 1, 8),
   (3, 9, 4), (3, 4, 2), (3, 2, 6), (3, 6, 8), (3, 8, 9),
   (4, 9, 5), (2, 4, 11), (6, 2, 10), (8, 6, 7), (9, 8, 1)]

/-- `PolyhedronGeometry.applyRadius`: project a vertex onto the sphere of the
given radius. -/
def applyRadius (radius : ℝ) (v : Vec3) : Vec3 := v.normalize.multiplyScalar radius

/-- One face of `PolyhedronGeometry.subdivide` at detail 1: the face `(a,b,c)`
becomes the four midpoint sub-triangles, emitted in the library's order, and
every vertex is then pushed onto the sphere of radius `7.5`. -/
def subdivideFaceDetail1 (f : ℕ × ℕ × ℕ) : List Vec3 :=
  let a := icoVertex f.1
  let b := icoVertex f.2.1
  let c := icoVertex f.2.2
  let mab := a.lerp b (1 / 2)
  let mbc := b.lerp c (1 / 2)
  let mac := a.lerp c (1 / 2)
  [mab, mac, a, mab, mbc, mac, b, mbc, mab, mbc, c, mac].map (applyRadius 7.5)

/-- The non-indexed position buffer of `new THREE.IcosahedronGeometry(7.5, 1)`. -/
def icosahedronPositions : List Vec3 := icoFaces.flatMap subdivideFaceDetail1

/-- The `for (let i = 0; i < positions.count; i += 3)` loops of
`generateStructure`: consume the position buffer three vertices at a time. -/
def chunk3 : List Vec3 → List (Vec3 × Vec3 × Vec3)
  | a :: b :: c :: rest => (a, b, c) :: chunk3 rest
  | _ => []

/-- The seed triangles every fractal variant is built from. -/
def seedTriangles : List (Vec3 × Vec3 × Vec3) := chunk3 icosahedronPositions

set_option maxRecDepth 8000 in
theorem icosahedronPositions_length : icosahedronPositions.length = 240 := by
  rfl

set_option maxRecDepth 8000 in
theorem seedTriangles_length : seedTriangles.length = 80 := by
  rfl

/-! ### Mesh assembly: `generateStructure`

Meshes and line segments are modelled by their geometry identity, material
identity, vertex data, and shadow flags.  Geometry ids record which
`BufferGeometry` object a mesh points at (the code reuses `mainGeom` and
`lineGeom` for both the principal and the exterior copy, so those meshes share
ids); material ids are all distinct because every mesh receives `clone()` of a
palette material or a freshly constructed material.  Ids are assigned in
construction order within a branch. -/

/-- A renderable mesh or line-segments object as assembled by
`generateStructure`. -/
structure MeshE where
  geomId : ℕ
  matId : ℕ
  data : List Vec3
  castShadow : Bool
  receiveShadow : Bool

/-- One of the three layer groups, with its uniform scale. -/
structure GroupE where
  meshes : List MeshE
  scale : ℝ

/-- The `FractalArtifacts` record returned by `generateStructure`. -/
structure FractalArtifacts where
  geoidePrincipalGroup : GroupE
  geoideInteriorGroup : GroupE
  geoideExteriorGroup : GroupE
  mainFractalMeshes : List MeshE
  mainLineMeshes : List MeshE

/-- The wireframe derivation loops of `generateStructure`: for each consecutive
triangle `v1 v2 v3` push the edge pairs `v1,v2, v2,v3, v3,v1`. -/
def lineExpand : List Vec3 → List Vec3
  | v1 :: v2 :: v3 :: rest => [v1, v2, v2, v3, v3, v1] ++ lineExpand rest
  | _ => []

/-- The non-hybrid (`else`) branch of `generateStructure`, given the filled
`mainVertices` and `dualVertices` accumulators.  Geometry ids: `mainGeom = 1`,
`dualGeom = 2`, `lineGeom = 3`; material ids `3..8` are the six clones in
creation order (the palette originals are ids `0..2`).  Note the principal and
exterior surface meshes share `mainGeom`, and the two line meshes share
`lineGeom`, exactly as in the source. -/
def nonHybridArtifacts (mainVertices dualVertices : List Vec3) : FractalArtifacts :=
  let lineVertices := lineExpand mainVertices
  let mainFractalMesh1 : MeshE := ⟨1, 3, mainVertices, true, true⟩
  let mainFractalLines1 : MeshE := ⟨3, 4, lineVertices, false, false⟩
  let dualFractalMesh2 : MeshE := ⟨2, 5, dualVertices, false, true⟩
  let mainFractalMesh3 : MeshE := ⟨1, 6, mainVertices, true, true⟩
  let mainFractalLines3 : MeshE := ⟨3, 7, lineVertices, false, false⟩
  let dualFractalMesh3 : MeshE := ⟨2, 8, dualVertices, false, true⟩
  { geoidePrincipalGroup := ⟨[mainFractalMesh1, mainFractalLines1], 1⟩
    geoideInteriorGroup := ⟨[dualFractalMesh2], 0.5⟩
    geoideExteriorGroup := ⟨[mainFractalMesh3, mainFractalLines3, dualFractalMesh3], 1.5⟩
    mainFractalMeshes := [mainFractalMesh1, mainFractalMesh3]
    mainLineMeshes := [mainFractalLines1, mainFractalLines3] }

/-- The accumulator loop of the hybrid branch of `generateStructure`: every
seed triangle feeds `buildKoch`, `buildFractal` (whose output is the pair of
the main and the negative-space lists) and `buildJulia`, each into its own
accumulator. -/
def hybridAccums (currentDepth : ℕ) : List Vec3 × (List Vec3 × List Vec3) × List Vec3 :=
  seedTriangles.foldl
    (fun acc t =>
      (buildKoch t.1 t.2.1 t.2.2 currentDepth acc.1,
       buildFractal t.1 t.2.1 t.2.2 currentDepth acc.2.1,
       buildJulia t.1 t.2.1 t.2.2 currentDepth acc.2.2))
    ([], ([], []), [])

/-- `generateStructure` from `Scene.tsx`, as a function of the depth and the
fractal type (the seed triangles are the fixed icosahedron faces). -/
def generateStructure (currentDepth : ℕ) (currentFractalType : FractalType) : FractalArtifacts :=
  match currentFractalType with
  | .hybrid =>
    let acc := hybridAccums currentDepth
    let kochVertices := acc.1
    let sierpinskiMainVertices := acc.2.1.1
    let juliaVertices := acc.2.2
    let kochMesh : MeshE := ⟨1, 3, kochVertices, true, true⟩
    let kochLines : MeshE := ⟨2, 4, lineExpand kochVertices, false, false⟩
    let sierpinskiMesh : MeshE := ⟨3, 5, sierpinskiMainVertices, true, true⟩
    let sierpinskiLines : MeshE := ⟨4, 6, lineExpand sierpinskiMainVertices, false, false⟩
    let juliaMesh : MeshE := ⟨5, 7, juliaVertices, true, true⟩
    let juliaLines : MeshE := ⟨6, 8, lineExpand juliaVertices, false, false⟩
    { geoidePrincipalGroup := ⟨[sierpinskiMesh, sierpinskiLines], 1⟩
      geoideInteriorGroup := ⟨[juliaMesh, juliaLines], 0.5⟩
      geoideExteriorGroup := ⟨[kochMesh, kochLines], 1.5⟩
      mainFractalMeshes := [kochMesh, sierpinskiMesh, juliaMesh]
      mainLineMeshes := [kochLines, sierpinskiLines, juliaLines] }
  | .noegenesis =>
    let acc := seedTriangles.foldl
      (fun acc t => buildFractal t.1 t.2.1 t.2.2 currentDepth acc) ([], [])
    nonHybridArtifacts acc.1 acc.2
  | .koch =>
    nonHybridArtifacts
      (seedTriangles.foldl (fun acc t => buildKoch t.1 t.2.1 t.2.2 currentDepth acc) []) []
  | .mandelbrot =>
    nonHybridArtifacts
      (seedTriangles.foldl (fun acc t => buildMandelbrot t.1 t.2.1 t.2.2 currentDepth acc) []) []
  | .julia =>
    nonHybridArtifacts
      (seedTriangles.foldl (fun acc t => buildJulia t.1 t.2.1 t.2.2 currentDepth acc) []) []

/-- All meshes of a generated structure, grouped layer by layer (principal,
interior, exterior) as children of `structureGroup`. -/
def allMeshes (a : FractalArtifacts) : List MeshE :=
  a.geoidePrincipalGroup.meshes ++ a.geoideInteriorGroup.meshes ++ a.geoideExteriorGroup.meshes

theorem foldl_buildFractal_main_length (d : ℕ) (seeds : List (Vec3 × Vec3 × Vec3)) :
    ∀ acc : List Vec3 × List Vec3,
      (seeds.foldl (fun acc t => buildFractal t.1 t.2.1 t.2.2 d acc) acc).1.length =
        acc.1.length + seeds.length * (3 * 3 ^ d) := by
  induction seeds with
  | nil => intro acc; simp
  | cons t rest ih =>
    intro acc
    simp only [List.foldl_cons, List.length_cons]
    rw [ih, buildFractal_main_length]
    ring

/-! ### Escape-time iteration, as the specification words it

The spec describes both iterations as the complex-plane map `z ← z² + c`, run
"until `|z| > 2` or the iteration cap of 32 is reached".  `specEscapeTime` is
that description verbatim, over `ℂ`; the lemmas below prove the two real-pair
`while` loops of the source compute exactly it. -/

/-- Modelled from the spec: the bounded escape-time evaluator, iterating
`z ← z ^ 2 + c` until `|z| > 2` or the cap is exhausted; the result is the
number of iterations executed. -/
def specEscapeTime (c z : ℂ) : ℕ → ℕ
  | 0 => 0
  | cap + 1 =>
    if 2 < Complex.abs z then 0
    else specEscapeTime c (z ^ 2 + c) cap + 1

theorem complex_escape_cond (x y : ℝ) :
    (2 < Complex.abs ⟨x, y⟩) ↔ ¬(x * x + y * y ≤ 4) := by
  rw [Complex.abs_apply, Complex.normSq_mk]
  have hnn : (0 : ℝ) ≤ x * x + y * y := by nlinarith
  constructor
  · intro h hle
    have h4 : Real.sqrt (x * x + y * y) ≤ 2 := by
      have hs : Real.sqrt (x * x + y * y) ≤ Real.sqrt 4 := Real.sqrt_le_sqrt hle
      have h2 : Real.sqrt 4 = 2 := by
        rw [show (4 : ℝ) = 2 ^ 2 by norm_num, Real.sqrt_sq (by norm_num : (0 : ℝ) ≤ 2)]
      linarith
    linarith
  · intro h
    have h4 : 4 < x * x + y * y := by linarith [lt_of_not_le h]
    have : (2 : ℝ) ^ 2 < x * x + y * y := by nlinarith
    exact (Real.lt_sqrt (by norm_num)).mpr this

theorem complex_step (x y cx cy : ℝ) :
    (⟨x, y⟩ : ℂ) ^ 2 + ⟨cx, cy⟩ = ⟨x * x - y * y + cx, 2 * x * y + cy⟩ := by
  apply Complex.ext
  · simp [pow_two, Complex.mul_re]
  · simp [pow_two, Complex.mul_im]; ring

theorem mandelbrotLoop_eq_spec (fuel : ℕ) :
    ∀ cx cy zx zy : ℝ,
      mandelbrotLoop cx cy zx zy fuel = specEscapeTime ⟨cx, cy⟩ ⟨zx, zy⟩ fuel := by
  induction fuel with
  | zero => intro cx cy zx zy; rfl
  | succ fuel ih =>
    intro cx cy zx zy
    rw [mandelbrotLoop, specEscapeTime, complex_step]
    rcases le_or_lt (zx * zx + zy * zy) 4 with h | h
    · rw [if_pos h, if_neg (by rw [complex_escape_cond]; exact not_not_intro h), ih]
    · rw [if_neg (by linarith), if_pos (by rw [complex_escape_cond]; intro hc; linarith)]

theorem juliaLoop_eq_spec (fuel : ℕ) :
    ∀ zx zy : ℝ,
      juliaLoop zx zy fuel = specEscapeTime ⟨-0.70176, -0.3842⟩ ⟨zx, zy⟩ fuel := by
  induction fuel with
  | zero => intro zx zy; rfl
  | succ fuel ih =>
    intro zx zy
    rw [juliaLoop, specEscapeTime, complex_step]
    rcases le_or_lt (zx * zx + zy * zy) 4 with h | h
    · rw [if_pos h, if_neg (by rw [complex_escape_cond]; exact not_not_intro h), ih]
    · rw [if_neg (by linarith), if_pos (by rw [complex_escape_cond]; intro hc; linarith)]

theorem mandelbrotIteration_eq_spec (cx cy : ℝ) (maxIter : ℕ) :
    mandelbrotIteration cx cy maxIter = specEscapeTime ⟨cx, cy⟩ 0 maxIter := by
  have h0 : (0 : ℂ) = ⟨(0 : ℝ), (0 : ℝ)⟩ := by
    apply Complex.ext <;> simp
  rw [mandelbrotIteration, mandelbrotLoop_eq_spec, h0]

theorem juliaIteration_eq_spec (zx zy : ℝ) (maxIter : ℕ) :
    juliaIteration zx zy maxIter = specEscapeTime ⟨-0.70176, -0.3842⟩ ⟨zx, zy⟩ maxIter := by
  rw [juliaIteration, juliaLoop_eq_spec]

/-! ### Per-level emission, as the specification words it -/

/-- Modelled from the spec (§4.1, Mandelbrot): at a recursion level with edge
midpoints `m12 m23 m31`, map the central triangle's centroid to the complex
plane by `x̂ = (x / R) * 1.5 - 0.5`, `ŷ = (y / R) * 1.5` with `R = 7.5`, run
the escape-time iteration from `z₀ = 0` with `c` the mapped point and cap 32;
if the count is strictly below 32 emit three spike triangles whose apex lies at
distance `(1 - iterations / 32) * 1.5 * (length v1 / 7.5)` from the centroid
along the central triangle's unit normal, else emit the flat central triangle. -/
def mandelbrotSpecEmit (v1 m12 m23 m31 : Vec3) : List Vec3 :=
  let centroid := ((m12.add m23).add m31).divideScalar 3
  let c : ℂ := ⟨(centroid.x / 7.5) * 1.5 - 0.5, (centroid.y / 7.5) * 1.5⟩
  let iterations := specEscapeTime c 0 32
  if iterations < 32 then
    let unitNormal := ((m23.sub m12).cross (m31.sub m12)).normalize
    let dist := (1 - ((iterations : ℝ) / 32)) * 1.5 * (v1.length / 7.5)
    let apex := centroid.add (unitNormal.multiplyScalar dist)
    [m12, m23, apex] ++ [m23, m31, apex] ++ [m31, m12, apex]
  else
    [m12, m23, m31]

/-- Modelled from the spec (§4.1, Julia): as `mandelbrotSpecEmit` but the
centroid maps by `x̂ = (x / R) * 2`, `ŷ = (y / R) * 2`, the mapped point is the
starting iterate `z₀`, and the constant is fixed at `c = (-0.70176, -0.3842)`. -/
def juliaSpecEmit (v1 m12 m23 m31 : Vec3) : List Vec3 :=
  let centroid := ((m12.add m23).add m31).divideScalar 3
  let z0 : ℂ := ⟨(centroid.x / 7.5) * 2, (centroid.y / 7.5) * 2⟩
  let iterations := specEscapeTime ⟨-0.70176, -0.3842⟩ z0 32
  if iterations < 32 then
    let unitNormal := ((m23.sub m12).cross (m31.sub m12)).normalize
    let dist := (1 - ((iterations : ℝ) / 32)) * 1.5 * (v1.length / 7.5)
    let apex := centroid.add (unitNormal.multiplyScalar dist)
    [m12, m23, apex] ++ [m23, m31, apex] ++ [m31, m12, apex]
  else
    [m12, m23, m31]

/-! ### Doppler color shader (`updateDopplerColors`) -/

/-- An RGB color with real channels in `[0, 1]`, after `THREE.Color`. -/
structure Color where
  r : ℝ
  g : ℝ
  b : ℝ

/-- `THREE.Color` from a hex literal: each byte scaled to `[0, 1]`. -/
def Color.ofHex (n : ℕ) : Color :=
  ⟨((n / 65536 % 256 : ℕ) : ℝ) / 255, ((n / 256 % 256 : ℕ) : ℝ) / 255, ((n % 256 : ℕ) : ℝ) / 255⟩

/-- `THREE.Color.lerp`: move each channel toward the target by `alpha`. -/
def Color.lerp (c target : Color) (alpha : ℝ) : Color :=
  ⟨c.r + (target.r - c.r) * alpha, c.g + (target.g - c.g) * alpha, c.b + (target.b - c.b) * alpha⟩

/-- `baseMainColor = new THREE.Color(0xff8c00)` of `Scene.tsx`. -/
def baseMainColor : Color := Color.ofHex 0xff8c00

/-- `blueshiftColor = new THREE.Color(0xffff00)`. -/
def blueshiftColor : Color := Color.ofHex 0xffff00

/-- `redshiftColor = new THREE.Color(0x000000)`. -/
def redshiftColor : Color := Color.ofHex 0x000000

/-- The `speed = state.speed / 20000` conversion of `animate` before the value
reaches rotation and `updateDopplerColors`. -/
def dopplerSpeedParam (stateSpeed : ℝ) : ℝ := stateSpeed / 20000

/-- The angular-velocity vector of `updateDopplerColors`: `y = speed * 100` for
the horizontal axis, `x = speed * 100` for the vertical one, and both
(`y = speed * 100`, `x = speed * 70`) otherwise. -/
def angularVelocityOf (speed : ℝ) : RotationAxis → Vec3
  | .horizontal => ⟨0, speed * 100, 0⟩
  | .vertical => ⟨speed * 100, 0, 0⟩
  | .both => ⟨speed * 70, speed * 100, 0⟩

/-- Per-vertex relative speed: the simulated linear velocity is the negated
cross product of the world position with the angular velocity, projected on the
normalized vector from the vertex to the camera. -/
def relativeSpeedAt (angularVelocity worldPos cameraPos : Vec3) : ℝ :=
  ((worldPos.cross angularVelocity).negate).dot ((cameraPos.sub worldPos).normalize)

/-- The color written for one vertex by `updateDopplerColors`: blend the base
color toward the blueshift color when approaching, toward the redshift color
when receding, by `min (|relativeSpeed| * 0.17) 1`. -/
def dopplerVertexColor (speed : ℝ) (axis : RotationAxis) (worldPos cameraPos : Vec3) : Color :=
  let relativeSpeed := relativeSpeedAt (angularVelocityOf speed axis) worldPos cameraPos
  if 0 < relativeSpeed then
    baseMainColor.lerp blueshiftColor (min (relativeSpeed * 0.17) 1)
  else
    baseMainColor.lerp redshiftColor (min (-relativeSpeed * 0.17) 1)

/-! ### Geometry color buffers

`updateDopplerColors` stores the computed vertex colors in the `color`
attribute of `mesh.geometry`; the buffer a mesh renders with is therefore keyed
by the identity of its geometry.  A freshly created attribute is a zero-filled
`Float32Array`. -/

/-- The color attributes of all geometries, keyed by geometry id. -/
def ColorStore := List (ℕ × List Color)

/-- `geometry.setAttribute` for the color attribute of geometry `g`. -/
def storeWrite (store : ColorStore) (gId : ℕ) (cs : List Color) : ColorStore :=
  (gId, cs) :: (store : List (ℕ × List Color)).filter (fun e => ¬ e.1 = gId)

/-- Read the color attribute a mesh with geometry id `gId` renders with. -/
def storeRead (store : ColorStore) (gId : ℕ) : Option (List Color) :=
  ((store : List (ℕ × List Color)).find? (fun e => e.1 = gId)).map (fun e => e.2)

/-- Recomputing the Doppler vertex colors of one mesh writes the computed
buffer into that mesh's geometry color attribute. -/
def dopplerWriteMesh (store : ColorStore) (m : MeshE) (cs : List Color) : ColorStore :=
  storeWrite store m.geomId cs

end

/-! ### Structure lifecycle and transition state machine

The transition logic of `animate` is modelled over rational timestamps and
opacities (the code uses floating-point seconds; the logic only compares,
subtracts and divides them).  A generated structure is reduced to its id, its
creation number, and the uniform material states `traverseMaterials` touches:
`generateStructure` assigns every structure six cloned or fresh materials
(opacity `1`, `transparent = false` on creation), and `disposeGroup` releases
every geometry and material of a group, recorded here as the group id joining
the `disposed` log.  `frameStep` is one `animate` callback restricted to the
transition-relevant steps, in source order: first the transition-animation
block, then the parameter-change block. -/

/-- One material as `traverseMaterials` sees it. -/
structure MaterialM where
  opacity : ℚ
  transparent : Bool
deriving DecidableEq, Repr

/-- One generated structure group: its identity plus its materials. -/
structure GroupM where
  id : ℕ
  mats : List MaterialM
deriving DecidableEq, Repr

/-- `traverseMaterials group callback`. -/
def traverseMaterials (g : GroupM) (f : MaterialM → MaterialM) : GroupM :=
  { g with mats := g.mats.map f }

/-- A freshly generated structure: six materials, opaque and non-blended. -/
def newStructure (id : ℕ) : GroupM :=
  ⟨id, List.replicate 6 ⟨1, false⟩⟩

/-- `TRANSITION_DURATION = 0.75` seconds. -/
def transitionDuration : ℚ := 3 / 4

/-- The mutable state of the `animate` closure that the transition system
touches: the active artifacts, `fadingOutGroupRef`, `transitionStartTimeRef`,
the `currentDepth` / `currentFractalType` mirrors, plus bookkeeping for
verification (`nextId` counts structures ever generated, `disposed` logs every
`disposeGroup` call in order). -/
structure TransState where
  active : GroupM
  fading : Option GroupM
  start : Option ℚ
  curDepth : ℕ
  curType : FractalType
  nextId : ℕ
  disposed : List ℕ
deriving DecidableEq, Repr

/-- The transition-animation block of `animate`: when a fade is in flight,
compute `progress = min ((time - start) / 0.75) 1`, set the outgoing opacities
to `1 - progress` and the incoming ones to `progress`; once `progress ≥ 1`,
dispose the outgoing group, clear the transition refs, and reset the incoming
materials to opaque and non-blended. -/
def transitionPhase (st : TransState) (time : ℚ) : TransState :=
  match st.fading, st.start with
  | some fadingGroup, some startTime =>
    let progress := min ((time - startTime) / transitionDuration) 1
    let fadingGroup := traverseMaterials fadingGroup (fun m => { m with opacity := 1 - progress })
    let active := traverseMaterials st.active (fun m => { m with opacity := progress })
    if 1 ≤ progress then
      { st with
        active := traverseMaterials active (fun m => { m with transparent := false, opacity := 1 })
        fading := none
        start := none
        disposed := st.disposed ++ [fadingGroup.id] }
    else
      { st with active := active, fading := some fadingGroup }
  | _, _ => st

/-- The parameter-change block of `animate`: when the snapshot's depth or
fractal type differs from the values the active structure was built with, first
dispose any still-fading group immediately, then turn the active structure into
the new outgoing (marking its materials blend-enabled), record the trigger
time, and generate a brand-new incoming structure with transparent materials at
opacity `0`. -/
def paramChangePhase (st : TransState) (time : ℚ) (depth : ℕ) (ft : FractalType) : TransState :=
  if st.curDepth ≠ depth ∨ st.curType ≠ ft then
    let st1 :=
      match st.fading with
      | some g => { st with disposed := st.disposed ++ [g.id], fading := none }
      | none => st
    let outgoing := traverseMaterials st1.active (fun m => { m with transparent := true })
    let incoming :=
      traverseMaterials (newStructure st1.nextId) (fun m => { m with transparent := true, opacity := 0 })
    { st1 with
      fading := some outgoing
      start := some time
      curDepth := depth
      curType := ft
      active := incoming
      nextId := st1.nextId + 1 }
  else st

/-- One `animate` frame, restricted to the transition-relevant steps. -/
def frameStep (st : TransState) (time : ℚ) (depth : ℕ) (ft : FractalType) : TransState :=
  paramChangePhase (transitionPhase st time) time depth ft

/-- The state right after the initial `generateStructure` call. -/
def initialState (depth : ℕ) (ft : FractalType) : TransState :=
  ⟨newStructure 0, none, none, depth, ft, 1, []⟩

/-- Run a sequence of frames, each with its timestamp and parameter snapshot. -/
def runFrames (st : TransState) : List (ℚ × ℕ × FractalType) → TransState
  | [] => st
  | f :: rest => runFrames (frameStep st f.1 f.2.1 f.2.2) rest

/-- The structures generated so far and not yet destroyed. -/
def liveIds (st : TransState) : List ℕ :=
  (List.range st.nextId).filter (fun i => ¬ i ∈ st.disposed)

/-- State well-formedness maintained by `frameStep`: the active and fading
structures are live and distinct, the fading reference and the start timestamp
are set together, disposed ids were created, and every structure ever created
is disposed, active, or fading. -/
def Inv (st : TransState) : Prop :=
  st.active.id < st.nextId ∧
  st.active.id ∉ st.disposed ∧
  (∀ g ∈ st.fading, g.id < st.nextId ∧ g.id ∉ st.disposed ∧ g.id ≠ st.active.id) ∧
  st.fading.isSome = st.start.isSome ∧
  (∀ i ∈ st.disposed, i < st.nextId) ∧
  (∀ i ∈ List.range st.nextId, i ∈ st.disposed ∨ i = st.active.id ∨ ∃ g ∈ st.fading, i = g.id)

/-- A transition terminates during a frame when a fade is in flight and either
its progress reaches `1` (completion) or the snapshot's depth or type changed
(interruption). -/
def transitionEnds (st : TransState) (time : ℚ) (depth : ℕ) (ft : FractalType) : Prop :=
  match st.fading, st.start with
  | some _, some startTime =>
    1 ≤ min ((time - startTime) / transitionDuration) 1 ∨ st.curDepth ≠ depth ∨ st.curType ≠ ft
  | _, _ => False

@[simp] theorem traverseMaterials_id (g : GroupM) (f : MaterialM → MaterialM) :
    (traverseMaterials g f).id = g.id := rfl

theorem inv_initialState (d : ℕ) (ft : FractalType) : Inv (initialState d ft) := by
  refine ⟨?_, ?_, ?_, ?_, ?_, ?_⟩ <;>
    simp [initialState, newStructure, List.mem_range]

@[simp] theorem newStructure_id (n : ℕ) : (newStructure n).id = n := rfl

theorem inv_transitionPhase (st : TransState) (time : ℚ) (h : Inv st) :
    Inv (transitionPhase st time) := by
  obtain ⟨h1, h2, h3, h4, h5, h6⟩ := h
  rcases hf : st.fading with _ | g
  · rcases hs : st.start with _ | t0 <;>
      · simp only [transitionPhase, hf, hs]
        exact ⟨h1, h2, h3, h4, h5, h6⟩
  · rcases hs : st.start with _ | t0
    · simp only [transitionPhase, hf, hs]
      exact ⟨h1, h2, h3, h4, h5, h6⟩
    · have hg := h3 g (Option.mem_def.mpr hf)
      simp only [transitionPhase, hf, hs]
      split_ifs with hp
      · refine ⟨h1, ?_, ?_, rfl, ?_, ?_⟩
        · simp only [List.mem_append, List.mem_singleton, traverseMaterials_id]
          rintro (hin | hin)
          · exact h2 hin
          · exact hg.2.2 hin.symm
        · intro g' hg'
          simp only [Option.mem_def] at hg'
          exact Option.noConfusion hg'
        · intro i hi
          simp only [List.mem_append, List.mem_singleton, traverseMaterials_id] at hi
          rcases hi with hi | hi
          · exact h5 i hi
          · exact hi ▸ hg.1
        · intro i hi
          rcases h6 i hi with hc | hc | ⟨g', hg', hc⟩
          · exact Or.inl (List.mem_append.mpr (Or.inl hc))
          · exact Or.inr (Or.inl hc)
          · rw [hf] at hg'
            simp only [Option.mem_def, Option.some.injEq] at hg'
            subst hg'
            exact Or.inl (List.mem_append.mpr (Or.inr (List.mem_singleton.mpr hc)))
      · refine ⟨h1, h2, ?_, rfl, h5, ?_⟩
        · intro g' hg'
          simp only [Option.mem_def, Option.some.injEq] at hg'
          subst hg'
          simpa using hg
        · intro i hi
          rcases h6 i hi with hc | hc | ⟨g', hg', hc⟩
          · exact Or.inl hc
          · exact Or.inr (Or.inl hc)
          · rw [hf] at hg'
            simp only [Option.mem_def, Option.some.injEq] at hg'
            subst hg'
            exact Or.inr (Or.inr ⟨_, rfl, hc⟩)

theorem inv_paramChangePhase (st : TransState) (time : ℚ) (depth : ℕ) (ft : FractalType)
    (h : Inv st) : Inv (paramChangePhase st time depth ft) := by
  obtain ⟨h1, h2, h3, h4, h5, h6⟩ := h
  rw [paramChangePhase]
  split_ifs with hchange
  · rcases hf : st.fading with _ | g
    · simp only [hf]
      refine ⟨?_, ?_, ?_, rfl, ?_, ?_⟩
      · simp only [traverseMaterials_id, newStructure_id]
        exact Nat.lt_succ_self _
      · simp only [traverseMaterials_id, newStructure_id]
        intro hin
        exact absurd (h5 _ hin) (lt_irrefl _)
      · intro g' hg'
        simp only [Option.mem_def, Option.some.injEq] at hg'
        subst hg'
        simp only [traverseMaterials_id, newStructure_id]
        exact ⟨Nat.lt_succ_of_lt h1, h2, Nat.ne_of_lt h1⟩
      · intro i hi
        exact Nat.lt_succ_of_lt (h5 i hi)
      · intro i hi
        simp only [List.mem_range] at hi
        rcases Nat.lt_succ_iff_lt_or_eq.mp hi with hi | hi
        · rcases h6 i (List.mem_range.mpr hi) with hc | hc | ⟨g', hg', _⟩
          · exact Or.inl hc
          · exact Or.inr (Or.inr ⟨_, rfl, hc⟩)
          · rw [hf] at hg'
            simp only [Option.mem_def] at hg'
            exact Option.noConfusion hg'
        · refine Or.inr (Or.inl ?_)
          simp only [traverseMaterials_id, newStructure_id]
          exact hi
    · have hg := h3 g (Option.mem_def.mpr hf)
      simp only [hf]
      refine ⟨?_, ?_, ?_, rfl, ?_, ?_⟩
      · simp only [traverseMaterials_id, newStructure_id]
        exact Nat.lt_succ_self _
      · simp only [traverseMaterials_id, newStructure_id, List.mem_append, List.mem_singleton]
        rintro (hin | hin)
        · exact absurd (h5 _ hin) (lt_irrefl _)
        · exact absurd (hin ▸ hg.1) (lt_irrefl _)
      · intro g' hg'
        simp only [Option.mem_def, Option.some.injEq] at hg'
        subst hg'
        simp only [traverseMaterials_id, newStructure_id, List.mem_append, List.mem_singleton]
        refine ⟨Nat.lt_succ_of_lt h1, ?_, Nat.ne_of_lt h1⟩
        rintro (hin | hin)
        · exact h2 hin
        · exact hg.2.2 hin.symm
      · intro i hi
        simp only [List.mem_append, List.mem_singleton] at hi
        rcases hi with hi | hi
        · exact Nat.lt_succ_of_lt (h5 i hi)
        · exact Nat.lt_succ_of_lt (hi ▸ hg.1)
      · intro i hi
        simp only [List.mem_range] at hi
        rcases Nat.lt_succ_iff_lt_or_eq.mp hi with hi | hi
        · rcases h6 i (List.mem_range.mpr hi) with hc | hc | ⟨g', hg', hc⟩
          · exact Or.inl (List.mem_append.mpr (Or.inl hc))
          · exact Or.inr (Or.inr ⟨_, rfl, hc⟩)
          · rw [hf] at hg'
            simp only [Option.mem_def, Option.some.injEq] at hg'
            subst hg'
            exact Or.inl (List.mem_append.mpr (Or.inr (List.mem_singleton.mpr hc)))
        · refine Or.inr (Or.inl ?_)
          simp only [traverseMaterials_id, newStructure_id]
          exact hi
  · exact ⟨h1, h2, h3, h4, h5, h6⟩

theorem inv_frameStep (st : TransState) (time : ℚ) (depth : ℕ) (ft : FractalType)
    (h : Inv st) : Inv (frameStep st time depth ft) :=
  inv_paramChangePhase _ _ _ _ (inv_transitionPhase _ _ h)

theorem inv_runFrames (frames : List (ℚ × ℕ × FractalType)) :
    ∀ st : TransState, Inv st → Inv (runFrames st frames) := by
  induction frames with
  | nil => intro st h; exact h
  | cons f rest ih =>
    intro st h
    exact ih _ (inv_frameStep _ _ _ _ h)

theorem subset_length_le_two (l : List ℕ) (a b : ℕ) (hnodup : l.Nodup)
    (hsub : l ⊆ [a, b]) : l.length ≤ 2 :=
  calc l.length = l.toFinset.card := (List.toFinset_card_of_nodup hnodup).symm
    _ ≤ ([a, b] : List ℕ).toFinset.card := by
        apply Finset.card_le_card
        intro x hx
        rw [List.mem_toFinset] at hx ⊢
        exact hsub hx
    _ ≤ ([a, b] : List ℕ).length := List.toFinset_card_le _
    _ ≤ 2 := by simp

noncomputable section

/-- Triangles emitted by `buildKoch` for one seed triangle: the vertex list is
consumed three vertices per triangle. -/
def kochTriangleCount (v1 v2 v3 : Vec3) (d : ℕ) : ℕ :=
  (buildKoch v1 v2 v3 d []).length / 3

/-- Placeholder mesh used as the default of `List.headD` when inspecting mesh
lists (never actually returned: the inspected lists are nonempty). -/
def dummyMesh : MeshE := ⟨0, 0, [], false, false⟩

/-- The surface mesh of the principal layer group (its first child). -/
def principalSurfaceMesh (a : FractalArtifacts) : MeshE :=
  a.geoidePrincipalGroup.meshes.headD dummyMesh

end

theorem kochTriangleCount_eq (v1 v2 v3 : Vec3) (d : ℕ) :
    kochTriangleCount v1 v2 v3 d = kochT d := by
  rw [kochTriangleCount, buildKoch_length]
  simp [Nat.mul_div_cancel_left]

theorem principal_main_data_length (d : ℕ) :
    (principalSurfaceMesh (generateStructure d FractalType.noegenesis)).data.length =
      240 * 3 ^ d := by
  simp only [principalSurfaceMesh, generateStructure, nonHybridArtifacts, List.headD_cons]
  rw [foldl_buildFractal_main_length, seedTriangles_length]
  simp
  ring

theorem liveIds_length_le (st : TransState) (h : Inv st) : (liveIds st).length ≤ 2 := by
  obtain ⟨h1, h2, h3, h4, h5, h6⟩ := h
  have hnodup : (liveIds st).Nodup := (List.nodup_range _).filter _
  rcases hf : st.fading with _ | g
  · refine subset_length_le_two _ st.active.id st.active.id hnodup ?_
    intro i hi
    simp only [liveIds, List.mem_filter, List.mem_range, decide_eq_true_eq] at hi
    rcases h6 i (List.mem_range.mpr hi.1) with hc | hc | ⟨g', hg', hc⟩
    · exact absurd hc hi.2
    · simp [hc]
    · rw [hf] at hg'
      simp only [Option.mem_def] at hg'
      exact Option.noConfusion hg'
  · refine subset_length_le_two _ st.active.id g.id hnodup ?_
    intro i hi
    simp only [liveIds, List.mem_filter, List.mem_range, decide_eq_true_eq] at hi
    rcases h6 i (List.mem_range.mpr hi.1) with hc | hc | ⟨g', hg', hc⟩
    · exact absurd hc hi.2
    · simp [hc]
    · rw [hf] at hg'
      simp only [Option.mem_def, Option.some.injEq] at hg'
      subst hg'
      simp [hc]

/-! ## Claims -/

/-- C3: for every depth `d ≥ 0` and every seed triangle, the base (plain)
algorithm `buildFractal` emits exactly `3 ^ d` triangles (hence `3 * 3 ^ d`
vertices) into its main output list. -/
theorem C3_base_emits_pow3 (v1 v2 v3 : Vec3) (d : ℕ) :
    (buildFractal v1 v2 v3 d ([], [])).1.length = 3 * 3 ^ d := by
  simpa using buildFractal_main_length d v1 v2 v3 ([], [])

/-- C9: for every depth `d ≥ 0` and every seed triangle, `buildKoch` emits
exactly `(5 * 3 ^ d - 3) / 2` triangles; equivalently its emission count `T`
satisfies `T 0 = 1` and `T (d+1) = 3 * T d + 3` (three corner recursions plus
three spike triangles per level). -/
theorem C9_koch_emission_count (v1 v2 v3 : Vec3) (d : ℕ) :
    kochTriangleCount v1 v2 v3 d = (5 * 3 ^ d - 3) / 2 ∧
    kochTriangleCount v1 v2 v3 0 = 1 ∧
    kochTriangleCount v1 v2 v3 (d + 1) = 3 * kochTriangleCount v1 v2 v3 d + 3 := by
  refine ⟨?_, ?_, ?_⟩
  · rw [kochTriangleCount_eq]
    have h := kochT_closed d
    omega
  · rw [kochTriangleCount_eq]; rfl
  · rw [kochTriangleCount_eq, kochTriangleCount_eq]; rfl

/-- C1 counterexample: at depth 1, `buildKoch` emits 6 triangles (18 vertices)
from a single seed triangle, not `4 ^ 1 = 4` as the claim states. -/
theorem C1_counterexample :
    ¬ (kochTriangleCount ⟨0, 0, 0⟩ ⟨1, 0, 0⟩ ⟨0, 1, 0⟩ 1 = 4 ^ 1) := by
  rw [kochTriangleCount_eq]
  simp [kochT]

/-- C1 amended: for every depth `d ≥ 0` and every seed triangle, `buildKoch`
emits exactly `(5 * 3 ^ d - 3) / 2` triangles into its output vertex list (not
`4 ^ d`: each level contributes three corner recursions plus three spike
triangles, never a fourth recursion). -/
theorem C1_amended_koch_count (v1 v2 v3 : Vec3) (d : ℕ) :
    (buildKoch v1 v2 v3 d []).length = 3 * ((5 * 3 ^ d - 3) / 2) := by
  rw [buildKoch_length]
  have h := kochT_closed d
  simp only [List.length_nil, Nat.zero_add]
  omega

/-- C2 counterexample: with depth 3 and fractal type `noegenesis`, the
principal layer's surface mesh holds 2160 triangles, not `20 * 3 ^ 3 = 540`:
the seed geometry `new THREE.IcosahedronGeometry(7.5, 1)` has detail 1 and
therefore 80 faces, not 20. -/
theorem C2_counterexample :
    ¬ ((principalSurfaceMesh (generateStructure 3 FractalType.noegenesis)).data.length / 3 = 540) := by
  rw [principal_main_data_length]
  norm_num

/-- C2 amended: with depth 3 and fractal type `noegenesis`, the principal
layer's surface mesh contains exactly `80 * 3 ^ 3 = 2160` triangles — the
icosahedron seed geometry is built at detail 1, which subdivides each of the 20
faces into 4, giving 80 seed triangles. -/
theorem C2_amended_principal_count :
    (principalSurfaceMesh (generateStructure 3 FractalType.noegenesis)).data.length / 3 =
      80 * 3 ^ 3 ∧ seedTriangles.length = 80 := by
  refine ⟨?_, seedTriangles_length⟩
  rw [principal_main_data_length]
  norm_num

/-- C4: at every recursion level (`d + 1` for any `d ≥ 0`) and for every input
triangle, `buildMandelbrot` and `buildJulia` recurse on the three corner
sub-triangles and then emit exactly what the specification's displacement rule
prescribes: the central midpoint triangle's centroid is mapped to the complex
plane with the stated affine scalings (`R = 7.5`; Mandelbrot `z₀ = 0` with `c`
the mapped point, Julia `z₀` the mapped point with `c = (-0.70176, -0.3842)`),
the escape-time iteration `z ← z² + c` runs until `|z| > 2` or the cap of 32 is
reached, and if the count is strictly below 32 three spike triangles are
emitted whose apex lies at distance `(1 - iterations/32) * 1.5 * (|v1|/7.5)`
from the centroid along the central triangle's unit normal, else the flat
central midpoint triangle. -/
theorem C4_escape_time_displacement (v1 v2 v3 : Vec3) (d : ℕ) (acc : List Vec3) :
    buildMandelbrot v1 v2 v3 (d + 1) acc =
      buildMandelbrot ((v3.add v1).multiplyScalar 0.5) ((v2.add v3).multiplyScalar 0.5) v3 d
        (buildMandelbrot ((v1.add v2).multiplyScalar 0.5) v2 ((v2.add v3).multiplyScalar 0.5) d
          (buildMandelbrot v1 ((v1.add v2).multiplyScalar 0.5) ((v3.add v1).multiplyScalar 0.5) d acc)) ++
        mandelbrotSpecEmit v1 ((v1.add v2).multiplyScalar 0.5) ((v2.add v3).multiplyScalar 0.5)
          ((v3.add v1).multiplyScalar 0.5) ∧
    buildJulia v1 v2 v3 (d + 1) acc =
      buildJulia ((v3.add v1).multiplyScalar 0.5) ((v2.add v3).multiplyScalar 0.5) v3 d
        (buildJulia ((v1.add v2).multiplyScalar 0.5) v2 ((v2.add v3).multiplyScalar 0.5) d
          (buildJulia v1 ((v1.add v2).multiplyScalar 0.5) ((v3.add v1).multiplyScalar 0.5) d acc)) ++
        juliaSpecEmit v1 ((v1.add v2).multiplyScalar 0.5) ((v2.add v3).multiplyScalar 0.5)
          ((v3.add v1).multiplyScalar 0.5) := by
  constructor
  · simp only [buildMandelbrot, mandelbrotSpecEmit, Vec3.zero_add,
      mandelbrotIteration_eq_spec, Nat.cast_ofNat]
    split_ifs with h
    · simp [List.append_assoc]
    · rfl
  · simp only [buildJulia, juliaSpecEmit, Vec3.zero_add,
      juliaIteration_eq_spec, Nat.cast_ofNat]
    split_ifs with h
    · simp [List.append_assoc]
    · rfl

/-- C10: for fractal type `hybrid`, the negative-space list collected by the
base algorithm (`(hybridAccums d).2.1.2`) is never assembled into any mesh: the
six meshes of the three layers (principal, interior, exterior) carry exactly
the Sierpinski main list, the Julia list, the Koch list and their wireframe
expansions — the dual component of the `buildFractal` accumulator pair appears
in none of them. -/
theorem C10_hybrid_drops_negative_space (d : ℕ) :
    (allMeshes (generateStructure d FractalType.hybrid)).map MeshE.data =
      [(hybridAccums d).2.1.1, lineExpand (hybridAccums d).2.1.1,
       (hybridAccums d).2.2, lineExpand (hybridAccums d).2.2,
       (hybridAccums d).1, lineExpand (hybridAccums d).1] ∧
    ∀ m ∈ allMeshes (generateStructure d FractalType.hybrid),
      m.data = (hybridAccums d).2.1.1 ∨ m.data = lineExpand (hybridAccums d).2.1.1 ∨
      m.data = (hybridAccums d).2.2 ∨ m.data = lineExpand (hybridAccums d).2.2 ∨
      m.data = (hybridAccums d).1 ∨ m.data = lineExpand (hybridAccums d).1 := by
  constructor
  · simp [generateStructure, allMeshes]
  · intro m hm
    simp only [generateStructure, allMeshes, List.mem_append, List.mem_cons,
      List.not_mem_nil, or_false] at hm
    rcases hm with ((hm | hm) | (hm | hm)) | (hm | hm) <;> subst hm <;> simp

/-- C7 counterexample: with fractal type `noegenesis` (depth 0), the principal
and exterior surface meshes are distinct meshes (different cloned materials)
but point at one and the same geometry, and the Doppler color write performed
for the exterior mesh (at speed 0 it writes the base color into a freshly
created zero-filled buffer) changes the color attribute the principal mesh
renders with — vertex-color mutation does alias across these two meshes. -/
theorem C7_counterexample :
    ((generateStructure 0 FractalType.noegenesis).mainFractalMeshes.headD dummyMesh).matId ≠
      (((generateStructure 0 FractalType.noegenesis).mainFractalMeshes.drop 1).headD dummyMesh).matId ∧
    ((generateStructure 0 FractalType.noegenesis).mainFractalMeshes.headD dummyMesh).geomId =
      (((generateStructure 0 FractalType.noegenesis).mainFractalMeshes.drop 1).headD dummyMesh).geomId ∧
    storeRead
      (dopplerWriteMesh [(1, List.replicate 240 ⟨0, 0, 0⟩)]
        (((generateStructure 0 FractalType.noegenesis).mainFractalMeshes.drop 1).headD dummyMesh)
        (List.replicate 240 baseMainColor))
      (((generateStructure 0 FractalType.noegenesis).mainFractalMeshes.headD dummyMesh).geomId) ≠
    storeRead ([(1, List.replicate 240 ⟨0, 0, 0⟩)] : ColorStore)
      (((generateStructure 0 FractalType.noegenesis).mainFractalMeshes.headD dummyMesh).geomId) := by
  have hgeom1 :
      ((generateStructure 0 FractalType.noegenesis).mainFractalMeshes.headD dummyMesh).geomId = 1 := by
    simp only [generateStructure, nonHybridArtifacts, List.headD_cons]
  have hgeom3 :
      (((generateStructure 0 FractalType.noegenesis).mainFractalMeshes.drop 1).headD dummyMesh).geomId = 1 := by
    simp only [generateStructure, nonHybridArtifacts, List.drop, List.headD_cons]
  refine ⟨?_, ?_, ?_⟩
  · simp only [generateStructure, nonHybridArtifacts, List.drop, List.headD_cons]
    norm_num
  · rw [hgeom1, hgeom3]
  · rw [dopplerWriteMesh, hgeom3, hgeom1]
    intro h
    simp only [storeWrite, storeRead] at h
    simp only [List.filter] at h
    simp only [List.find?] at h
    norm_num at h
    have hr := congrArg Color.r h
    norm_num [baseMainColor, Color.ofHex] at hr

/-- C7 amended: every mesh instance receives its own material instance (the
material ids of all meshes of any structure are pairwise distinct, so material
mutation never aliases), and within a hybrid structure the surface meshes also
have pairwise distinct geometries; but in every non-hybrid structure the
principal and exterior surface meshes share a single geometry (both carry
geometry id 1), so Doppler vertex-color writes — which live on the geometry's
color attribute — alias between those two meshes. -/
theorem C7_amended_material_geometry_aliasing :
    (∀ (d : ℕ) (ft : FractalType),
        ((allMeshes (generateStructure d ft)).map MeshE.matId).Nodup) ∧
    (∀ d : ℕ,
        ((generateStructure d FractalType.hybrid).mainFractalMeshes.map MeshE.geomId).Nodup) ∧
    (∀ d : ℕ,
        (generateStructure d FractalType.noegenesis).mainFractalMeshes.map MeshE.geomId = [1, 1] ∧
        (generateStructure d FractalType.koch).mainFractalMeshes.map MeshE.geomId = [1, 1] ∧
        (generateStructure d FractalType.mandelbrot).mainFractalMeshes.map MeshE.geomId = [1, 1] ∧
        (generateStructure d FractalType.julia).mainFractalMeshes.map MeshE.geomId = [1, 1]) := by
  refine ⟨?_, ?_, ?_⟩
  · intro d ft
    cases ft <;> simp [generateStructure, nonHybridArtifacts, allMeshes]
  · intro d
    simp [generateStructure]
  · intro d
    refine ⟨?_, ?_, ?_, ?_⟩ <;> simp [generateStructure, nonHybridArtifacts]

/-- C8: with the Doppler effect active and the rotation speed parameter equal
to 0, every vertex of every surface mesh gets relative speed 0 and its written
color is exactly the base color `0xff8c00`, for any axis mode, world position
and camera position. -/
theorem C8_doppler_speed_zero (axis : RotationAxis) (worldPos cameraPos : Vec3) :
    relativeSpeedAt (angularVelocityOf (dopplerSpeedParam 0) axis) worldPos cameraPos = 0 ∧
    dopplerVertexColor (dopplerSpeedParam 0) axis worldPos cameraPos = baseMainColor := by
  have hrel : relativeSpeedAt (angularVelocityOf (dopplerSpeedParam 0) axis) worldPos cameraPos = 0 := by
    cases axis <;>
      · simp only [dopplerSpeedParam, angularVelocityOf, relativeSpeedAt,
          Vec3.cross, Vec3.negate, Vec3.dot]
        ring
  refine ⟨hrel, ?_⟩
  rw [dopplerVertexColor, hrel]
  rw [if_neg (lt_irrefl 0)]
  have hmin : min (-(0 : ℝ) * 0.17) 1 = 0 := by norm_num
  rw [hmin]
  simp [Color.lerp]

/-- C5: the transition state machine preserves: (1) at every instant at most
two generated structures exist; (2) when a transition completes (progress
reaches 1) the outgoing structure is released (its id is logged by
`disposeGroup`, which frees all its geometries and materials) and the incoming
structure's materials are all reset to non-transparent with opacity 1; (3) when
a depth or fractal-type change arrives while a transition is still active, the
previous outgoing structure is destroyed immediately in that same frame and the
current active structure becomes the new outgoing; (4) exactly one structure is
destroyed per frame in which a transition completes or is interrupted, and
never more than one per frame. -/
theorem C5_transition_state_machine :
    (∀ (d0 : ℕ) (ft0 : FractalType) (frames : List (ℚ × ℕ × FractalType)),
        (liveIds (runFrames (initialState d0 ft0) frames)).length ≤ 2) ∧
    (∀ (st : TransState) (time : ℚ) (g : GroupM) (t0 : ℚ),
        st.fading = some g → st.start = some t0 →
        1 ≤ min ((time - t0) / transitionDuration) 1 →
        (transitionPhase st time).disposed = st.disposed ++ [g.id] ∧
        (transitionPhase st time).fading = none ∧
        ∀ m ∈ (transitionPhase st time).active.mats, m.opacity = 1 ∧ m.transparent = false) ∧
    (∀ (st : TransState) (time : ℚ) (depth : ℕ) (ft : FractalType) (g : GroupM) (t0 : ℚ),
        st.fading = some g → st.start = some t0 →
        min ((time - t0) / transitionDuration) 1 < 1 →
        (st.curDepth ≠ depth ∨ st.curType ≠ ft) →
        (frameStep st time depth ft).disposed = st.disposed ++ [g.id] ∧
        (frameStep st time depth ft).fading.map GroupM.id = some st.active.id ∧
        (frameStep st time depth ft).start = some time) ∧
    (∀ (st : TransState) (time : ℚ) (depth : ℕ) (ft : FractalType), Inv st →
        ((frameStep st time depth ft).disposed.length = st.disposed.length + 1 ↔
          transitionEnds st time depth ft) ∧
        (frameStep st time depth ft).disposed.length ≤ st.disposed.length + 1) := by
  refine ⟨?_, ?_, ?_, ?_⟩
  · intro d0 ft0 frames
    exact liveIds_length_le _ (inv_runFrames frames _ (inv_initialState d0 ft0))
  · intro st time g t0 hf hs hp
    simp only [transitionPhase, hf, hs, if_pos hp]
    refine ⟨by simp, by simp, ?_⟩
    intro m hm
    simp only [traverseMaterials, List.mem_map] at hm
    obtain ⟨m0, _, rfl⟩ := hm
    simp
  · intro st time depth ft g t0 hf hs hp hch
    rw [frameStep]
    simp only [transitionPhase, hf, hs, if_neg (not_le.mpr hp)]
    rw [paramChangePhase]
    rw [if_pos hch]
    simp
  · intro st time depth ft hinv
    obtain ⟨h1, h2, h3, h4, h5, h6⟩ := hinv
    rcases hf : st.fading with _ | g <;> rcases hs : st.start with _ | t0
    · rw [frameStep]
      simp only [transitionPhase, hf, hs]
      rw [paramChangePhase]
      simp only [transitionEnds, hf, hs]
      split_ifs with hch <;> simp [hf]
    · rw [hf, hs] at h4
      simp at h4
    · rw [hf, hs] at h4
      simp at h4
    · rw [frameStep]
      simp only [transitionPhase, hf, hs]
      split_ifs with hp
      · rw [paramChangePhase]
        simp only [transitionEnds, hf, hs]
        split_ifs with hch <;>
          exact ⟨iff_of_true (by simp) (Or.inl hp), by simp⟩
      · rw [paramChangePhase]
        simp only [transitionEnds, hf, hs]
        split_ifs with hch
        · exact ⟨iff_of_true (by simp) (Or.inr hch), by simp⟩
        · refine ⟨iff_of_false (fun hcontra => Nat.succ_ne_self _ hcontra.symm) ?_,
            Nat.le_succ _⟩
          rintro (hend | hend)
          · exact hp hend
          · exact hch hend

/-- C6: during an active transition, each frame sets the outgoing materials'
opacity to `1 - progress` and the incoming materials' opacity to `progress`
with `progress = clamp ((now - start) / 0.75, 0, 1)` (the code computes
`min ((now - start) / 0.75) 1`, which equals the clamp whenever the frame time
is at or after the recorded start, as it always is for a monotone clock), so
`opacity(outgoing) + opacity(incoming) = 1` at every sampled instant. -/
theorem C6_crossfade_opacities (st : TransState) (time : ℚ) (g : GroupM) (t0 : ℚ)
    (hf : st.fading = some g) (hs : st.start = some t0) (ht : t0 ≤ time) :
    min ((time - t0) / transitionDuration) 1 =
      max 0 (min ((time - t0) / transitionDuration) 1) ∧
    (∀ m ∈ (transitionPhase st time).active.mats,
        m.opacity = min ((time - t0) / transitionDuration) 1) ∧
    (min ((time - t0) / transitionDuration) 1 < 1 →
      ∀ g' ∈ (transitionPhase st time).fading, ∀ m ∈ g'.mats,
        m.opacity = 1 - min ((time - t0) / transitionDuration) 1) ∧
    (1 - min ((time - t0) / transitionDuration) 1) +
        min ((time - t0) / transitionDuration) 1 = 1 := by
  have hq : 0 ≤ (time - t0) / transitionDuration := by
    apply div_nonneg (by linarith) (by norm_num [transitionDuration])
  refine ⟨(max_eq_right (le_min hq (by norm_num))).symm, ?_, ?_, by ring⟩
  · intro m hm
    simp only [transitionPhase, hf, hs] at hm
    split_ifs at hm with hp
    · simp only [traverseMaterials, List.mem_map] at hm
      obtain ⟨m0, _, rfl⟩ := hm
      have : min ((time - t0) / transitionDuration) 1 = 1 :=
        le_antisymm (min_le_right _ _) hp
      simp [this]
    · simp only [traverseMaterials, List.mem_map] at hm
      obtain ⟨m0, _, rfl⟩ := hm
      rfl
  · intro hp g' hg' m hm
    simp only [transitionPhase, hf, hs, if_neg (not_le.mpr hp)] at hg'
    simp only [Option.mem_def, Option.some.injEq] at hg'
    subst hg'
    simp only [traverseMaterials, List.mem_map] at hm
    obtain ⟨m0, _, rfl⟩ := hm
    rfl

/-- A concrete mid-transition state: structure 0 fading out, structure 1 fading
in, transition started at `t = 0`. -/
def sampleOutgoing : GroupM := ⟨0, [⟨1, true⟩]⟩

/-- The incoming structure of the sample state. -/
def sampleIncoming : GroupM := ⟨1, [⟨0, true⟩]⟩

/-- A `TransState` in the middle of a transition. -/
def sampleTransitioning : TransState :=
  ⟨sampleIncoming, some sampleOutgoing, some 0, 3, FractalType.noegenesis, 2, []⟩

/-- Witness for C5: the four conjuncts applied at concrete inputs — one frame
from the initial state, a completing frame at `t = 1`, an interrupting
parameter change at `t = 1/4`, and the disposal-count bound at the initial
state. -/
theorem C5_witness :
    (liveIds (runFrames (initialState 3 FractalType.noegenesis) [(1, 4, FractalType.koch)])).length ≤ 2 ∧
    (transitionPhase sampleTransitioning 1).fading = none ∧
    (frameStep sampleTransitioning (1/4) 4 FractalType.noegenesis).fading.map GroupM.id =
      some sampleTransitioning.active.id ∧
    (frameStep (initialState 3 FractalType.noegenesis) 1 3 FractalType.noegenesis).disposed.length ≤
      (initialState 3 FractalType.noegenesis).disposed.length + 1 :=
  ⟨C5_transition_state_machine.1 3 FractalType.noegenesis [(1, 4, FractalType.koch)],
   (C5_transition_state_machine.2.1 sampleTransitioning 1 sampleOutgoing 0 rfl rfl
     (by norm_num [transitionDuration])).2.1,
   (C5_transition_state_machine.2.2.1 sampleTransitioning (1/4) 4 FractalType.noegenesis
     sampleOutgoing 0 rfl rfl (by norm_num [transitionDuration]) (Or.inl (by decide))).2.1,
   (C5_transition_state_machine.2.2.2 (initialState 3 FractalType.noegenesis) 1 3
     FractalType.noegenesis (inv_initialState 3 FractalType.noegenesis)).2⟩

/-- Witness for C6: at the sample mid-transition state with `now = 3/8`
(progress `1/2`), the incoming materials carry opacity `progress`. -/
theorem C6_witness :
    sampleTransitioning.fading = some sampleOutgoing ∧
    sampleTransitioning.start = some 0 ∧ (0 : ℚ) ≤ 3/8 ∧
    ∀ m ∈ (transitionPhase sampleTransitioning (3/8)).active.mats,
      m.opacity = min (((3 : ℚ)/8 - 0) / transitionDuration) 1 :=
  ⟨rfl, rfl, by norm_num,
   (C6_crossfade_opacities sampleTransitioning (3/8) sampleOutgoing 0 rfl rfl (by norm_num)).2.1⟩

end Noegenesis
